import Mathlib

/-!
Shallow embedding of the CommuGraph temporal graph builder
(`backend/app/services/graph_builder.py` together with the data model of
`backend/app/models/types.py`).

Modelling conventions:
- Python `datetime` timestamps are modelled as `Nat` (only their ordering,
  `min`/`max`, is ever used by the code).
- `networkx.DiGraph` is modelled as an association list of nodes (node id
  paired with its attribute record) plus a list of edges carrying their
  attribute records, in insertion order, which is exactly the iteration
  order networkx exposes.
- Python exceptions are modelled with `Except String`; a method of the
  `GraphBuilder` class is modelled as a function from the builder state
  that returns the (possibly updated) state together with the
  `Except`-result, so frame properties about `self` are expressible.
- Python truthiness tests (`if not self.graph`, `if max_step`,
  `if message.content`) are embedded explicitly: `None` and an empty graph
  and the integer `0` and the empty string are falsy.
- Float arithmetic of the metrics (`networkx.density`,
  `networkx.degree_centrality`) is modelled exactly over `ℚ`.
-/

namespace CommuGraph

/-- `MessageType` enum of `types.py` (`thought | action | observation |
delegation | response | system`). -/
inductive MessageType where
  | thought
  | action
  | observation
  | delegation
  | response
  | system
deriving DecidableEq, Repr

/-- The `.value` string of a `MessageType` member. -/
def MessageType.value : MessageType → String
  | .thought => "thought"
  | .action => "action"
  | .observation => "observation"
  | .delegation => "delegation"
  | .response => "response"
  | .system => "system"

/-- `IntentLabel` enum of `types.py`. -/
inductive IntentLabel where
  | delegation
  | information_request
  | information_response
  | feedback
  | coordination
  | unknown
deriving DecidableEq, Repr

/-- `Message` pydantic model of `types.py`; `metadata` carries no behaviour
relevant to the graph builder and is omitted. -/
structure Message where
  step_index : Nat
  timestamp : Nat
  sender : String
  receiver : Option String
  message_type : MessageType
  content : String
deriving DecidableEq, Repr

/-- `Interaction` pydantic model of `types.py`; its `metadata` dict is the
two-field dict built in `_add_interaction` (`message_type`,
`content_preview`), embedded as the two last fields. -/
structure Interaction where
  step_index : Nat
  timestamp : Nat
  intent : IntentLabel
  message_id : Option Nat
  meta_message_type : String
  meta_content_preview : String
deriving DecidableEq, Repr

/-- The node-attribute dict built by `GraphBuilder._add_or_update_node` and
attached to the graph's nodes (keys `id`, `label`, `message_count`,
`first_appearance`, `last_activity`; the `metadata` key is always `{}` and
is omitted).  Note this dict has no `messages_sent` / `messages_received`
keys. -/
structure NodeRecord where
  id : String
  label : String
  message_count : Nat
  first_appearance : Nat
  last_activity : Nat
deriving DecidableEq, Repr

/-- An edge of the `nx.DiGraph` with its attribute dict
(`interactions`, `weight`, `source`, `target`). -/
structure Edge where
  source : String
  target : String
  interactions : List Interaction
  weight : Nat
deriving DecidableEq, Repr

/-- The `nx.DiGraph` built by `GraphBuilder`: node table (in insertion
order, each node id with its attribute record) and edge list (in insertion
order). -/
structure Graph where
  nodes : List (String × NodeRecord)
  edges : List Edge
deriving DecidableEq, Repr

/-- The `type_to_intent` dict of `GraphBuilder._infer_intent`. -/
def typeToIntent : List (String × IntentLabel) :=
  [("delegation", IntentLabel.delegation),
   ("action", IntentLabel.coordination),
   ("response", IntentLabel.information_response),
   ("feedback", IntentLabel.feedback)]

/-- `GraphBuilder._infer_intent`: look the message type's `.value` up in
`type_to_intent`, defaulting to `UNKNOWN`. -/
def inferIntent (message : Message) : IntentLabel :=
  (typeToIntent.lookup message.message_type.value).getD IntentLabel.unknown

/-- `GraphBuilder._add_or_update_node` acting on the node table: create the
metadata record (zero count, both timestamps set to the message's) if the
id is absent, then, when the message's sender is this node, bump
`message_count` and push `last_activity` up to the message timestamp. -/
def addOrUpdateNode (nodeId : String) (message : Message)
    (nodes : List (String × NodeRecord)) : List (String × NodeRecord) :=
  let nodes :=
    if (nodes.lookup nodeId).isNone then
      nodes ++ [(nodeId,
        { id := nodeId, label := nodeId, message_count := 0,
          first_appearance := message.timestamp,
          last_activity := message.timestamp })]
    else nodes
  if message.sender = nodeId then
    nodes.map fun p =>
      if p.1 = nodeId then
        (p.1, { p.2 with
                  message_count := p.2.message_count + 1,
                  last_activity := max p.2.last_activity message.timestamp })
      else p
  else nodes

/-- The `Interaction` object constructed in `GraphBuilder._add_interaction`
(`message.content[:100] if message.content else ''` equals
`content.take 100` in both truthiness branches). -/
def mkInteraction (message : Message) : Interaction :=
  { step_index := message.step_index,
    timestamp := message.timestamp,
    intent := inferIntent message,
    message_id := some message.step_index,
    meta_message_type := message.message_type.value,
    meta_content_preview := message.content.take 100 }

/-- `self.graph.has_edge(sender, receiver)`. -/
def hasEdge (edges : List Edge) (s t : String) : Bool :=
  edges.any fun e => e.source == s && e.target == t

/-- `GraphBuilder._add_interaction` acting on the edge list: no-op without
a receiver; append the interaction and bump `weight` on an existing
`(sender, receiver)` edge, otherwise add a fresh edge with one interaction
and `weight = 1`. -/
def addInteraction (message : Message) (edges : List Edge) : List Edge :=
  match message.receiver with
  | none => edges
  | some receiver =>
    let sender := message.sender
    let interaction := mkInteraction message
    if hasEdge edges sender receiver then
      edges.map fun e =>
        if e.source == sender && e.target == receiver then
          { e with interactions := e.interactions ++ [interaction],
                   weight := e.weight + 1 }
        else e
    else
      edges ++ [{ source := sender, target := receiver,
                  interactions := [interaction], weight := 1 }]

/-- One iteration of the message loop in `GraphBuilder.build_graph`:
upsert the sender node; when a receiver is present, upsert it too and
record the interaction. -/
def buildStep (g : Graph) (message : Message) : Graph :=
  let nodes := addOrUpdateNode message.sender message g.nodes
  match message.receiver with
  | none => { g with nodes := nodes }
  | some receiver =>
    { nodes := addOrUpdateNode receiver message nodes,
      edges := addInteraction message g.edges }

/-- Stable insertion of a message into an already sorted list: it goes in
front of the first element with a key not below its own, hence after every
earlier element with an equal key. -/
def insertByStep (m : Message) : List Message → List Message
  | [] => [m]
  | x :: xs =>
    if m.step_index ≤ x.step_index then m :: x :: xs
    else x :: insertByStep m xs

/-- `sorted(messages, key=lambda m: m.step_index)`: Python's `sorted` is a
stable sort by the key, embedded as a stable insertion sort (every stable
sort by the same key produces the same list). -/
def sortMessages : List Message → List Message
  | [] => []
  | x :: xs => insertByStep x (sortMessages xs)

/-- The empty `nx.DiGraph()`. -/
def emptyGraph : Graph := { nodes := [], edges := [] }

/-- The graph value produced by a successful `GraphBuilder.build_graph`
run: fold the message loop over the sorted list. -/
def buildGraphF (messages : List Message) : Except String Graph :=
  if messages.isEmpty then
    Except.error "Cannot build graph from empty message list"
  else
    Except.ok ((sortMessages messages).foldl buildStep emptyGraph)

/-- The mutable state of a `GraphBuilder` instance (`self.graph`,
`self.messages`). -/
structure GraphBuilder where
  graph : Option Graph
  messages : List Message
deriving DecidableEq, Repr

/-- `GraphBuilder.__init__`. -/
def GraphBuilder.init : GraphBuilder := { graph := none, messages := [] }

/-- `GraphBuilder.build_graph`: raises on an empty list (before touching
`self`, so the state is returned unchanged); otherwise commits the sorted
messages and the built graph to `self` and returns the graph. -/
def GraphBuilder.buildGraphRun (b : GraphBuilder) (messages : List Message) :
    GraphBuilder × Except String Graph :=
  if messages.isEmpty then
    (b, Except.error "Cannot build graph from empty message list")
  else
    let sorted := sortMessages messages
    let g := sorted.foldl buildStep emptyGraph
    ({ graph := some g, messages := sorted }, Except.ok g)

/-- Python truthiness of `self.graph` (`if not self.graph`): falsy when
`None` and also when the graph has no nodes (an empty `nx.DiGraph` is
falsy). -/
def graphTruthy : Option Graph → Bool
  | none => false
  | some g => !g.nodes.isEmpty

/-- Python truthiness of the optional `max_step` argument
(`... if max_step else ...`): `None` and `0` are falsy. -/
def optStepTruthy : Option Nat → Bool
  | none => false
  | some n => n != 0

/-- The edge pass of `GraphBuilder.filter_graph_by_step`: per edge keep
the interactions with `step_index <= max_step`; edges whose kept list is
empty are collected in `edges_to_remove` and dropped, the others get the
kept list and `weight = len(kept)`. -/
def filterEdges (edges : List Edge) (maxStep : Nat) : List Edge :=
  edges.filterMap fun e =>
    let kept := e.interactions.filter fun i => i.step_index ≤ maxStep
    if kept.isEmpty then none
    else some { e with interactions := kept, weight := kept.length }

/-- Whether a node has an incident (in or out) edge, i.e. nonzero degree
in the `nx.DiGraph`; `nx.isolates` collects the nodes where this is
false. -/
def incident (edges : List Edge) (nodeId : String) : Bool :=
  edges.any fun e => e.source == nodeId || e.target == nodeId

/-- Pure core of `GraphBuilder.filter_graph_by_step` on a built graph:
filter the edges, then remove the isolated nodes.  (`self.graph.copy()`
copies the graph structure and gives each edge a fresh attribute dict, so
the reassignments `filtered[u][v]['interactions'] = ...` and
`... ['weight'] = ...` replace keys of the copy's dicts and never touch
the base graph; the base is therefore simply read.) -/
def filterGraphByStep (g : Graph) (maxStep : Nat) : Graph :=
  let edges := filterEdges g.edges maxStep
  { nodes := g.nodes.filter fun p => incident edges p.1, edges := edges }

/-- `GraphBuilder.filter_graph_by_step` as a method: raises when
`self.graph` is falsy; performs no assignment to `self`, whose state is
returned unchanged. -/
def GraphBuilder.filterGraphByStepRun (b : GraphBuilder) (maxStep : Nat) :
    GraphBuilder × Except String Graph :=
  if !graphTruthy b.graph then
    (b, Except.error "No graph built yet. Call build_graph() first.")
  else
    match b.graph with
    | none => (b, Except.error "No graph built yet. Call build_graph() first.")
    | some g => (b, Except.ok (filterGraphByStep g maxStep))

/-- `NodeData` pydantic model of `types.py` (graph-builder-relevant
fields). -/
structure NodeData where
  id : String
  label : String
  message_count : Nat
  messages_sent : Nat
  messages_received : Nat
  first_appearance : Option Nat
  last_activity : Option Nat
deriving DecidableEq, Repr

/-- `NodeData(**node_data_dict)` in `to_graph_snapshot`: the attribute
dict built by `_add_or_update_node` has no `messages_sent` /
`messages_received` keys, so those fields take their pydantic defaults
`0`. -/
def NodeRecord.toNodeData (r : NodeRecord) : NodeData :=
  { id := r.id, label := r.label, message_count := r.message_count,
    messages_sent := 0, messages_received := 0,
    first_appearance := some r.first_appearance,
    last_activity := some r.last_activity }

/-- `EdgeData` pydantic model of `types.py`. -/
structure EdgeData where
  source : String
  target : String
  interactions : List Interaction
  weight : Nat
deriving DecidableEq, Repr

/-- The `metadata` dict attached to a `GraphSnapshot` by
`to_graph_snapshot`. -/
structure SnapshotMetadata where
  node_count : Nat
  edge_count : Nat
  message_count : Nat
deriving DecidableEq, Repr

/-- `GraphSnapshot` pydantic model of `types.py`. -/
structure GraphSnapshot where
  nodes : List NodeData
  edges : List EdgeData
  current_step : Option Nat
  total_steps : Nat
  metadata : SnapshotMetadata
deriving DecidableEq, Repr

/-- `max(m.step_index for m in self.messages) if self.messages else 0`. -/
def totalSteps (messages : List Message) : Nat :=
  if messages.isEmpty then 0
  else (messages.map Message.step_index).foldl max 0

/-- `GraphBuilder.to_graph_snapshot`: raises when `self.graph` is falsy;
uses `self.filter_graph_by_step(max_step) if max_step else self.graph`
(Python truthiness, so `max_step=0` selects the unfiltered base graph);
converts nodes and edges of the chosen graph, stamps
`current_step = max_step`, `total_steps`, and the count metadata
(`message_count` is always `len(self.messages)`). -/
def GraphBuilder.toGraphSnapshotRun (b : GraphBuilder) (max_step : Option Nat) :
    GraphBuilder × Except String GraphSnapshot :=
  if !graphTruthy b.graph then
    (b, Except.error "No graph built yet. Call build_graph() first.")
  else
    match b.graph with
    | none => (b, Except.error "No graph built yet. Call build_graph() first.")
    | some g =>
      let graph_to_use :=
        if optStepTruthy max_step then filterGraphByStep g (max_step.getD 0)
        else g
      let nodes := graph_to_use.nodes.map fun p => p.2.toNodeData
      let edges := graph_to_use.edges.map fun e =>
        ({ source := e.source, target := e.target,
           interactions := e.interactions, weight := e.weight } : EdgeData)
      (b, Except.ok
        { nodes := nodes, edges := edges,
          current_step := max_step,
          total_steps := totalSteps b.messages,
          metadata :=
            { node_count := nodes.length, edge_count := edges.length,
              message_count := b.messages.length } })

/-- The dict returned by `GraphBuilder.get_graph_metrics`; the three
centrality keys are present exactly when the corresponding `Option` is
`some`. -/
structure GraphMetrics where
  node_count : Nat
  edge_count : Nat
  density : ℚ
  degree_centrality : Option (List (String × ℚ))
  in_degree_centrality : Option (List (String × ℚ))
  out_degree_centrality : Option (List (String × ℚ))
deriving DecidableEq, Repr

/-- `G.out_degree(v)` of the embedded `nx.DiGraph`. -/
def outDegree (g : Graph) (v : String) : Nat :=
  (g.edges.filter fun e => e.source == v).length

/-- `G.in_degree(v)` of the embedded `nx.DiGraph`. -/
def inDegree (g : Graph) (v : String) : Nat :=
  (g.edges.filter fun e => e.target == v).length

/-- `G.degree(v)` of a `nx.DiGraph`: in-degree plus out-degree. -/
def degree (g : Graph) (v : String) : Nat :=
  inDegree g v + outDegree g v

/-- `networkx.density`: `0` when there are no edges or at most one node,
else `m / (n * (n - 1))` for a directed graph (float arithmetic modelled
exactly over `ℚ`). -/
def density (g : Graph) : ℚ :=
  let n := g.nodes.length
  let m := g.edges.length
  if m = 0 ∨ n ≤ 1 then 0
  else (m : ℚ) / ((n : ℚ) * ((n : ℚ) - 1))

/-- `networkx.degree_centrality` (and its in and out degree variants, which
differ only in the degree function): `{v: 1 for v in G}` when
`len(G) <= 1`, else `{v: d(v) * (1 / (n - 1))}` (float arithmetic
modelled exactly over `ℚ`). -/
def centralityBy (degf : String → Nat) (g : Graph) : List (String × ℚ) :=
  let n := g.nodes.length
  if n ≤ 1 then g.nodes.map fun p => (p.1, (1 : ℚ))
  else g.nodes.map fun p => (p.1, (degf p.1 : ℚ) * (1 / ((n : ℚ) - 1)))

/-- `GraphBuilder.get_graph_metrics`: raises when `self.graph` is falsy;
always reports `node_count`, `edge_count`, `density`, and adds the three
centrality maps when `number_of_nodes() > 0` (the networkx centrality
functions return normally on every directed graph, so the `try/except`
around them never fires on the success path modelled here). -/
def GraphBuilder.getGraphMetricsRun (b : GraphBuilder) :
    GraphBuilder × Except String GraphMetrics :=
  if !graphTruthy b.graph then
    (b, Except.error "No graph built yet. Call build_graph() first.")
  else
    match b.graph with
    | none => (b, Except.error "No graph built yet. Call build_graph() first.")
    | some g =>
      let base : GraphMetrics :=
        { node_count := g.nodes.length, edge_count := g.edges.length,
          density := density g,
          degree_centrality := none, in_degree_centrality := none,
          out_degree_centrality := none }
      let m :=
        if g.nodes.length > 0 then
          { base with
              degree_centrality := some (centralityBy (degree g) g),
              in_degree_centrality := some (centralityBy (inDegree g) g),
              out_degree_centrality := some (centralityBy (outDegree g) g) }
        else base
      (b, Except.ok m)

/-- Number of messages of a list whose sender is `v` (the spec's
"messages in which it is the sender"). -/
def countSent (messages : List Message) (v : String) : Nat :=
  (messages.filter fun m => m.sender == v).length

/-- Number of messages of a list whose receiver is `v` (the spec's
"messages in which it is the receiver"). -/
def countReceived (messages : List Message) (v : String) : Nat :=
  (messages.filter fun m => m.receiver == some v).length

/-- Total number of interactions of a graph (summed over its edges). -/
def interactionCount (g : Graph) : Nat :=
  (g.edges.map fun e => e.interactions.length).sum

/-! ### Concrete fixtures (the spec's Scenario A and small bug inputs) -/

/-- Scenario A of the spec: four messages
`[(step0,A→B,delegation), (step1,B→A,response), (step2,B→A,response),
(step3,A→C,delegation)]`. -/
def msgsW : List Message :=
  [{ step_index := 0, timestamp := 10, sender := "A", receiver := some "B",
     message_type := .delegation, content := "task" },
   { step_index := 1, timestamp := 11, sender := "B", receiver := some "A",
     message_type := .response, content := "reply" },
   { step_index := 2, timestamp := 12, sender := "B", receiver := some "A",
     message_type := .response, content := "reply2" },
   { step_index := 3, timestamp := 13, sender := "A", receiver := some "C",
     message_type := .delegation, content := "task2" }]

/-- The graph built from Scenario A. -/
def gW : Graph := (sortMessages msgsW).foldl buildStep emptyGraph

/-- A builder that has run `build_graph` on Scenario A. -/
def bW : GraphBuilder := (GraphBuilder.init.buildGraphRun msgsW).1

/-- A single directed message at step 1 (its step index is positive on
purpose). -/
def msgsStep1 : List Message :=
  [{ step_index := 1, timestamp := 0, sender := "A", receiver := some "B",
     message_type := .action, content := "go" }]

/-- The graph built from `msgsStep1`. -/
def graphStep1 : Graph := (sortMessages msgsStep1).foldl buildStep emptyGraph

/-- A builder that has run `build_graph` on `msgsStep1`. -/
def builderStep1 : GraphBuilder := (GraphBuilder.init.buildGraphRun msgsStep1).1

/-- A single broadcast message (no receiver): its graph has one node and
no edges. -/
def msgsSolo : List Message :=
  [{ step_index := 0, timestamp := 5, sender := "A", receiver := none,
     message_type := .thought, content := "t" }]

/-- A builder that has run `build_graph` on `msgsSolo`. -/
def builderSolo : GraphBuilder := (GraphBuilder.init.buildGraphRun msgsSolo).1

/-- Three A→B messages at steps 0, 1, 2. -/
def msgsThree : List Message :=
  [{ step_index := 0, timestamp := 0, sender := "A", receiver := some "B",
     message_type := .action, content := "x" },
   { step_index := 1, timestamp := 1, sender := "A", receiver := some "B",
     message_type := .action, content := "y" },
   { step_index := 2, timestamp := 2, sender := "A", receiver := some "B",
     message_type := .action, content := "z" }]

/-- The graph built from `msgsThree`. -/
def graphThree : Graph := (sortMessages msgsThree).foldl buildStep emptyGraph

/-- A builder that has run `build_graph` on `msgsThree`. -/
def builderThree : GraphBuilder := (GraphBuilder.init.buildGraphRun msgsThree).1

/-! ### Helper lemmas -/

/-- A property preserved by every `buildStep` holds of the fold of the
message loop. -/
theorem foldl_buildStep_invariant {P : Graph → Prop}
    (hstep : ∀ g m, P g → P (buildStep g m)) :
    ∀ (l : List Message) (g0 : Graph), P g0 → P (l.foldl buildStep g0) := by
  intro l
  induction l with
  | nil => exact fun g0 h0 => h0
  | cons m l ih => exact fun g0 h0 => ih (buildStep g0 m) (hstep g0 m h0)

/-- A successful `build_graph` returns exactly the fold of the message
loop over the sorted input. -/
theorem buildGraphF_ok {msgs : List Message} {g : Graph}
    (hg : buildGraphF msgs = Except.ok g) :
    g = (sortMessages msgs).foldl buildStep emptyGraph := by
  unfold buildGraphF at hg
  split at hg
  · exact absurd hg (by simp)
  · injection hg with h
    exact h.symm

/-- `_add_interaction` preserves the per-edge weight invariant. -/
theorem addInteraction_weight (msg : Message) (edges : List Edge)
    (h : ∀ e ∈ edges, e.weight = e.interactions.length) :
    ∀ e ∈ addInteraction msg edges, e.weight = e.interactions.length := by
  unfold addInteraction
  cases msg.receiver with
  | none => exact h
  | some r =>
    dsimp only
    split
    · intro e he
      rcases List.mem_map.1 he with ⟨e0, he0, rfl⟩
      split
      · simp [h e0 he0]
      · exact h e0 he0
    · intro e he
      rcases List.mem_append.1 he with he | he
      · exact h e he
      · rcases List.mem_singleton.1 he with rfl
        rfl

/-- One builder step preserves the per-edge weight invariant. -/
theorem buildStep_weight (g : Graph) (m : Message)
    (h : ∀ e ∈ g.edges, e.weight = e.interactions.length) :
    ∀ e ∈ (buildStep g m).edges, e.weight = e.interactions.length := by
  unfold buildStep
  cases m.receiver with
  | none => exact h
  | some r => exact addInteraction_weight m g.edges h

/-- Every edge of a built graph satisfies the weight invariant. -/
theorem build_weight {msgs : List Message} {g : Graph}
    (hg : buildGraphF msgs = Except.ok g) :
    ∀ e ∈ g.edges, e.weight = e.interactions.length := by
  rw [buildGraphF_ok hg]
  exact foldl_buildStep_invariant buildStep_weight (sortMessages msgs)
    emptyGraph (by intro e he; cases he)

/-- Membership characterization of the edge pass of
`filter_graph_by_step`. -/
theorem mem_filterEdges {edges : List Edge} {K : Nat} {e : Edge} :
    e ∈ filterEdges edges K ↔
      ∃ e0 ∈ edges,
        (e0.interactions.filter fun i => i.step_index ≤ K) ≠ [] ∧
        e = { e0 with
                interactions := e0.interactions.filter fun i => i.step_index ≤ K,
                weight :=
                  (e0.interactions.filter fun i => i.step_index ≤ K).length } := by
  unfold filterEdges
  rw [List.mem_filterMap]
  constructor
  · rintro ⟨a, ha, hfa⟩
    dsimp only at hfa
    split at hfa
    · exact absurd hfa (by simp)
    · rename_i hne
      injection hfa with hfa
      exact ⟨a, ha, by simpa [List.isEmpty_iff] using hne, hfa.symm⟩
  · rintro ⟨e0, he0, hne, rfl⟩
    refine ⟨e0, he0, ?_⟩
    dsimp only
    rw [if_neg (by simpa [List.isEmpty_iff] using hne)]

/-- Every edge of a filtered view satisfies the weight invariant. -/
theorem filter_weight (g : Graph) (K : Nat) :
    ∀ e ∈ (filterGraphByStep g K).edges, e.weight = e.interactions.length := by
  intro e he
  rcases mem_filterEdges.1 he with ⟨e0, _, _, rfl⟩
  rfl

/-- `_infer_intent` only ever returns one of the four mapped labels or
`UNKNOWN`, and in particular never `INFORMATION_REQUEST`. -/
theorem inferIntent_mem (m : Message) :
    (inferIntent m = IntentLabel.delegation ∨
     inferIntent m = IntentLabel.coordination ∨
     inferIntent m = IntentLabel.information_response ∨
     inferIntent m = IntentLabel.feedback ∨
     inferIntent m = IntentLabel.unknown) ∧
    inferIntent m ≠ IntentLabel.information_request := by
  rcases m with ⟨s, t, sn, rc, mt, c⟩
  cases mt with
  | thought =>
    exact ⟨Or.inr (Or.inr (Or.inr (Or.inr rfl))), fun h => IntentLabel.noConfusion h⟩
  | action =>
    exact ⟨Or.inr (Or.inl rfl), fun h => IntentLabel.noConfusion h⟩
  | observation =>
    exact ⟨Or.inr (Or.inr (Or.inr (Or.inr rfl))), fun h => IntentLabel.noConfusion h⟩
  | delegation =>
    exact ⟨Or.inl rfl, fun h => IntentLabel.noConfusion h⟩
  | response =>
    exact ⟨Or.inr (Or.inr (Or.inl rfl)), fun h => IntentLabel.noConfusion h⟩
  | system =>
    exact ⟨Or.inr (Or.inr (Or.inr (Or.inr rfl))), fun h => IntentLabel.noConfusion h⟩

/-- `_add_interaction` preserves any per-interaction intent property that
holds of every `_infer_intent` output. -/
theorem addInteraction_intent {Q : IntentLabel → Prop}
    (hQ : ∀ m, Q (inferIntent m)) (msg : Message) (edges : List Edge)
    (h : ∀ e ∈ edges, ∀ i ∈ e.interactions, Q i.intent) :
    ∀ e ∈ addInteraction msg edges, ∀ i ∈ e.interactions, Q i.intent := by
  unfold addInteraction
  cases msg.receiver with
  | none => exact h
  | some r =>
    dsimp only
    split
    · intro e he
      rcases List.mem_map.1 he with ⟨e0, he0, rfl⟩
      split
      · intro i hi
        rcases List.mem_append.1 hi with hi | hi
        · exact h e0 he0 i hi
        · rcases List.mem_singleton.1 hi with rfl
          exact hQ msg
      · exact h e0 he0
    · intro e he
      rcases List.mem_append.1 he with he | he
      · exact h e he
      · rcases List.mem_singleton.1 he with rfl
        intro i hi
        rcases List.mem_singleton.1 hi with rfl
        exact hQ msg

/-- One builder step preserves any per-interaction intent property that
holds of every `_infer_intent` output. -/
theorem buildStep_intent {Q : IntentLabel → Prop}
    (hQ : ∀ m, Q (inferIntent m)) (g : Graph) (m : Message)
    (h : ∀ e ∈ g.edges, ∀ i ∈ e.interactions, Q i.intent) :
    ∀ e ∈ (buildStep g m).edges, ∀ i ∈ e.interactions, Q i.intent := by
  unfold buildStep
  cases m.receiver with
  | none => exact h
  | some r => exact addInteraction_intent hQ m g.edges h

/-- Two edges with different `(source, target)` keys. -/
def keyDistinct (e1 e2 : Edge) : Prop :=
  ¬(e1.source = e2.source ∧ e1.target = e2.target)

/-- `keyDistinct` is symmetric. -/
theorem keyDistinct_symm : Symmetric keyDistinct := by
  intro a b h hc
  exact h ⟨hc.1.symm, hc.2.symm⟩

/-- Mapping a key-preserving function over an edge list preserves
pairwise key distinctness. -/
theorem pairwise_keyDistinct_map {l : List Edge} (f : Edge → Edge)
    (hs : ∀ e, (f e).source = e.source) (ht : ∀ e, (f e).target = e.target)
    (h : l.Pairwise keyDistinct) : (l.map f).Pairwise keyDistinct := by
  rw [List.pairwise_map]
  refine h.imp ?_
  intro a b hab hc
  rw [hs, hs, ht, ht] at hc
  exact hab hc

/-- `_add_interaction` preserves pairwise key distinctness of the edge
list (a `nx.DiGraph` holds at most one edge per ordered node pair). -/
theorem addInteraction_keys (msg : Message) (edges : List Edge)
    (h : edges.Pairwise keyDistinct) :
    (addInteraction msg edges).Pairwise keyDistinct := by
  unfold addInteraction
  cases msg.receiver with
  | none => exact h
  | some r =>
    dsimp only
    split
    · exact pairwise_keyDistinct_map _
        (fun e => by split <;> rfl)
        (fun e => by split <;> rfl) h
    · rename_i hne
      rw [List.pairwise_append]
      refine ⟨h, List.pairwise_singleton _ _, ?_⟩
      intro a ha b hb
      rcases List.mem_singleton.1 hb with rfl
      intro hc
      apply hne
      unfold hasEdge
      rw [List.any_eq_true]
      refine ⟨a, ha, ?_⟩
      have h1 : a.source = msg.sender := hc.1
      have h2 : a.target = r := hc.2
      simp [h1, h2]

/-- One builder step preserves pairwise key distinctness. -/
theorem buildStep_keys (g : Graph) (m : Message)
    (h : g.edges.Pairwise keyDistinct) :
    (buildStep g m).edges.Pairwise keyDistinct := by
  unfold buildStep
  cases m.receiver with
  | none => exact h
  | some r => exact addInteraction_keys m g.edges h

/-- A built graph holds at most one edge object per ordered
`(source, target)` pair. -/
theorem build_keys {msgs : List Message} {g : Graph}
    (hg : buildGraphF msgs = Except.ok g) :
    g.edges.Pairwise keyDistinct := by
  rw [buildGraphF_ok hg]
  exact foldl_buildStep_invariant (P := fun g => g.edges.Pairwise keyDistinct)
    buildStep_keys (sortMessages msgs) emptyGraph List.Pairwise.nil

/-- The edge list of a filtered view is the edge pass over the base. -/
theorem filterGraphByStep_edges (g : Graph) (K : Nat) :
    (filterGraphByStep g K).edges = filterEdges g.edges K := rfl

/-- The node table of a filtered view keeps exactly the nodes incident to
a surviving edge. -/
theorem filterGraphByStep_nodes (g : Graph) (K : Nat) :
    (filterGraphByStep g K).nodes =
      g.nodes.filter fun p => incident (filterEdges g.edges K) p.1 := rfl

/-- Surviving edges are monotone in the step bound, with monotone
interaction counts. -/
theorem filterEdges_mono (edges : List Edge) (K1 K2 : Nat) (hK : K1 ≤ K2) :
    ∀ e1 ∈ filterEdges edges K1, ∃ e2 ∈ filterEdges edges K2,
      e2.source = e1.source ∧ e2.target = e1.target ∧
      e1.interactions.length ≤ e2.interactions.length := by
  intro e1 he1
  rcases mem_filterEdges.1 he1 with ⟨e0, he0, hne, rfl⟩
  have hsub : List.Sublist (e0.interactions.filter fun i => i.step_index ≤ K1)
      (e0.interactions.filter fun i => i.step_index ≤ K2) := by
    refine List.monotone_filter_right _ ?_
    intro a ha
    simp only [decide_eq_true_eq] at ha ⊢
    omega
  have hne2 : (e0.interactions.filter fun i => i.step_index ≤ K2) ≠ [] := by
    intro hnil
    exact hne (List.sublist_nil.1 (hnil ▸ hsub))
  exact ⟨_, mem_filterEdges.2 ⟨e0, he0, hne2, rfl⟩, rfl, rfl, hsub.length_le⟩

/-! ### Claim theorems -/

/-- C1: a filtered view at bound `K` keeps, per edge, exactly the base
interactions with `step_index <= K`; base edges whose kept list is empty
have no counterpart in the view; every node present in the view has an
incident (in or out) view edge, so isolated nodes are absent. -/
theorem c1_filter_exact (msgs : List Message) (g : Graph) (K : Nat)
    (hg : buildGraphF msgs = Except.ok g) :
    (∀ e ∈ (filterGraphByStep g K).edges,
       ∃ e0 ∈ g.edges, e.source = e0.source ∧ e.target = e0.target ∧
         e.interactions = e0.interactions.filter fun i => i.step_index ≤ K) ∧
    (∀ e0 ∈ g.edges, (e0.interactions.filter fun i => i.step_index ≤ K) ≠ [] →
       ∃ e ∈ (filterGraphByStep g K).edges,
         e.source = e0.source ∧ e.target = e0.target ∧
         e.interactions = e0.interactions.filter fun i => i.step_index ≤ K) ∧
    (∀ e0 ∈ g.edges, (e0.interactions.filter fun i => i.step_index ≤ K) = [] →
       ∀ e ∈ (filterGraphByStep g K).edges,
         ¬(e.source = e0.source ∧ e.target = e0.target)) ∧
    (∀ p ∈ (filterGraphByStep g K).nodes,
       ∃ e ∈ (filterGraphByStep g K).edges, e.source = p.1 ∨ e.target = p.1) := by
  have hkeys := build_keys hg
  refine ⟨?_, ?_, ?_, ?_⟩
  · intro e he
    rw [filterGraphByStep_edges] at he
    rcases mem_filterEdges.1 he with ⟨e0, he0, hne, rfl⟩
    exact ⟨e0, he0, rfl, rfl, rfl⟩
  · intro e0 he0 hne
    refine ⟨{ e0 with
                interactions := e0.interactions.filter fun i => i.step_index ≤ K,
                weight := (e0.interactions.filter fun i => i.step_index ≤ K).length },
            ?_, rfl, rfl, rfl⟩
    rw [filterGraphByStep_edges]
    exact mem_filterEdges.2 ⟨e0, he0, hne, rfl⟩
  · intro e0 he0 hempty e he hkey
    rw [filterGraphByStep_edges] at he
    rcases mem_filterEdges.1 he with ⟨e1, he1, hne1, rfl⟩
    have hkey' : e1.source = e0.source ∧ e1.target = e0.target := hkey
    by_cases h10 : e1 = e0
    · subst h10
      exact hne1 hempty
    · exact List.Pairwise.forall keyDistinct_symm hkeys he1 he0 h10 hkey'
  · intro p hp
    rw [filterGraphByStep_nodes] at hp
    have hinc := (List.mem_filter.1 hp).2
    unfold incident at hinc
    rw [List.any_eq_true] at hinc
    rcases hinc with ⟨e, he, hor⟩
    rw [filterGraphByStep_edges]
    refine ⟨e, he, ?_⟩
    simpa using hor

/-- Witness for C1 at the three-message fixture and bound `K = 1`. -/
theorem c1_filter_exact_witness :
    buildGraphF msgsThree = Except.ok graphThree ∧
    ((∀ e ∈ (filterGraphByStep graphThree 1).edges,
        ∃ e0 ∈ graphThree.edges, e.source = e0.source ∧ e.target = e0.target ∧
          e.interactions = e0.interactions.filter fun i => i.step_index ≤ 1) ∧
     (∀ e0 ∈ graphThree.edges,
        (e0.interactions.filter fun i => i.step_index ≤ 1) ≠ [] →
        ∃ e ∈ (filterGraphByStep graphThree 1).edges,
          e.source = e0.source ∧ e.target = e0.target ∧
          e.interactions = e0.interactions.filter fun i => i.step_index ≤ 1) ∧
     (∀ e0 ∈ graphThree.edges,
        (e0.interactions.filter fun i => i.step_index ≤ 1) = [] →
        ∀ e ∈ (filterGraphByStep graphThree 1).edges,
          ¬(e.source = e0.source ∧ e.target = e0.target)) ∧
     (∀ p ∈ (filterGraphByStep graphThree 1).nodes,
        ∃ e ∈ (filterGraphByStep graphThree 1).edges,
          e.source = p.1 ∨ e.target = p.1)) :=
  ⟨rfl, c1_filter_exact msgsThree graphThree 1 rfl⟩

/-- C2: for a built model and bounds `K1 < K2`, the node and edge sets of
the view at `K1` are contained in those of the view at `K2` (edges
identified by their `(source, target)` key), and each surviving edge's
interaction count at `K1` is at most its count at `K2`. -/
theorem c2_monotone (msgs : List Message) (g : Graph) (K1 K2 : Nat)
    (_hg : buildGraphF msgs = Except.ok g) (hK : K1 < K2) :
    (∀ p ∈ (filterGraphByStep g K1).nodes, p ∈ (filterGraphByStep g K2).nodes) ∧
    (∀ e1 ∈ (filterGraphByStep g K1).edges,
       ∃ e2 ∈ (filterGraphByStep g K2).edges,
         e2.source = e1.source ∧ e2.target = e1.target ∧
         e1.interactions.length ≤ e2.interactions.length) := by
  constructor
  · intro p hp
    rw [filterGraphByStep_nodes] at hp ⊢
    have hp' := List.mem_filter.1 hp
    refine List.mem_filter.2 ⟨hp'.1, ?_⟩
    have hinc := hp'.2
    unfold incident at hinc ⊢
    rw [List.any_eq_true] at hinc
    rcases hinc with ⟨e1, he1, hor⟩
    rcases filterEdges_mono g.edges K1 K2 (Nat.le_of_lt hK) e1 he1 with
      ⟨e2, he2, hs, ht, _⟩
    rw [List.any_eq_true]
    refine ⟨e2, he2, ?_⟩
    simp only [Bool.or_eq_true, beq_iff_eq] at hor ⊢
    rcases hor with h | h
    · exact Or.inl (hs.trans h)
    · exact Or.inr (ht.trans h)
  · intro e1 he1
    rw [filterGraphByStep_edges] at he1 ⊢
    exact filterEdges_mono g.edges K1 K2 (Nat.le_of_lt hK) e1 he1

/-- Witness for C2 at Scenario A and bounds `K1 = 1 < K2 = 2`. -/
theorem c2_monotone_witness :
    buildGraphF msgsW = Except.ok gW ∧ 1 < 2 ∧
    ((∀ p ∈ (filterGraphByStep gW 1).nodes, p ∈ (filterGraphByStep gW 2).nodes) ∧
     (∀ e1 ∈ (filterGraphByStep gW 1).edges,
        ∃ e2 ∈ (filterGraphByStep gW 2).edges,
          e2.source = e1.source ∧ e2.target = e1.target ∧
          e1.interactions.length ≤ e2.interactions.length)) :=
  ⟨rfl, by omega, c2_monotone msgsW gW 1 2 rfl (by omega)⟩

/-- C5: for every edge of the base model after build and for every edge of
every view produced by `filter_graph_by_step`, the cached `weight` equals
the length of that edge's interaction sequence. -/
theorem c5_weight_invariant (msgs : List Message) (g : Graph) (K : Nat)
    (hg : buildGraphF msgs = Except.ok g) :
    (∀ e ∈ g.edges, e.weight = e.interactions.length) ∧
    (∀ e ∈ (filterGraphByStep g K).edges, e.weight = e.interactions.length) :=
  ⟨build_weight hg, filter_weight g K⟩

/-- Witness for C5 at Scenario A and bound `K = 1`. -/
theorem c5_weight_invariant_witness :
    buildGraphF msgsW = Except.ok gW ∧
    ((∀ e ∈ gW.edges, e.weight = e.interactions.length) ∧
     (∀ e ∈ (filterGraphByStep gW 1).edges, e.weight = e.interactions.length)) :=
  ⟨rfl, c5_weight_invariant msgsW gW 1 rfl⟩

/-- C8: `build_graph` fails exactly on the empty message list (with the
"empty message list" error), succeeds with a model on every non-empty
list, and on the empty-input failure leaves the builder state untouched
(no model is committed). -/
theorem c8_empty_input (b : GraphBuilder) (msgs : List Message) :
    (msgs = [] →
      b.buildGraphRun msgs =
        (b, Except.error "Cannot build graph from empty message list")) ∧
    (msgs ≠ [] → ∃ g, (b.buildGraphRun msgs).2 = Except.ok g) := by
  constructor
  · rintro rfl
    rfl
  · intro hne
    unfold GraphBuilder.buildGraphRun
    rw [if_neg (by simpa [List.isEmpty_iff] using hne)]
    exact ⟨_, rfl⟩

/-- Witness for C8: the empty list fails without committing, Scenario A
succeeds. -/
theorem c8_empty_input_witness :
    GraphBuilder.init.buildGraphRun [] =
      (GraphBuilder.init, Except.error "Cannot build graph from empty message list") ∧
    (∃ g, (GraphBuilder.init.buildGraphRun msgsW).2 = Except.ok g) :=
  ⟨(c8_empty_input GraphBuilder.init []).1 rfl,
   (c8_empty_input GraphBuilder.init msgsW).2 (by simp [msgsW])⟩

/-- C9: `filter_graph_by_step` never mutates the builder: the state after
the call is the state before it, so in particular every base-model edge
keeps its interaction sequence and cached weight and the base node and
edge tables are identical before and after. -/
theorem c9_filter_frame (b : GraphBuilder) (k : Nat) :
    (b.filterGraphByStepRun k).1 = b ∧
    (b.filterGraphByStepRun k).1.graph.map Graph.edges = b.graph.map Graph.edges ∧
    (b.filterGraphByStepRun k).1.graph.map Graph.nodes = b.graph.map Graph.nodes := by
  have hfst : (b.filterGraphByStepRun k).1 = b := by
    unfold GraphBuilder.filterGraphByStepRun
    split
    · rfl
    · cases hb : b.graph <;> simp
  exact ⟨hfst, by rw [hfst], by rw [hfst]⟩

/-- C10: every interaction recorded by a successful build carries an
intent among delegation, coordination, information_response, feedback,
unknown, and never information_request. -/
theorem c10_intent_range (msgs : List Message) (g : Graph)
    (hg : buildGraphF msgs = Except.ok g) :
    ∀ e ∈ g.edges, ∀ i ∈ e.interactions,
      (i.intent = IntentLabel.delegation ∨
       i.intent = IntentLabel.coordination ∨
       i.intent = IntentLabel.information_response ∨
       i.intent = IntentLabel.feedback ∨
       i.intent = IntentLabel.unknown) ∧
      i.intent ≠ IntentLabel.information_request := by
  rw [buildGraphF_ok hg]
  exact foldl_buildStep_invariant
    (buildStep_intent
      (Q := fun x =>
        (x = IntentLabel.delegation ∨ x = IntentLabel.coordination ∨
         x = IntentLabel.information_response ∨ x = IntentLabel.feedback ∨
         x = IntentLabel.unknown) ∧ x ≠ IntentLabel.information_request)
      inferIntent_mem)
    (sortMessages msgs) emptyGraph (by intro e he; cases he)

set_option maxRecDepth 4000 in
/-- C3 (bug evidence): on the model built from a single A→B message at
step 1, `to_graph_snapshot(max_step=0)` returns the *unfiltered* view
(both nodes and the edge are present) while stamping `current_step = 0`,
even though `filter_graph_by_step(0)` is empty: Python truthiness treats
the provided bound `0` like an omitted argument. -/
theorem c3_snapshot_step_zero_bug :
    ((builderStep1.toGraphSnapshotRun (some 0)).2.toOption.map fun s =>
      (s.current_step, s.nodes.map NodeData.id,
       s.edges.map fun e => (e.source, e.target))) =
      some (some 0, ["A", "B"], [("A", "B")]) ∧
    (filterGraphByStep graphStep1 0).nodes = [] ∧
    (filterGraphByStep graphStep1 0).edges = [] := by
  decide

set_option maxRecDepth 8000 in
/-- C4 (bug evidence): after building Scenario A, every node of the
snapshot reports `messages_sent = 0` and `messages_received = 0` (the
builder's node metadata never writes those keys, so the pydantic defaults
survive), although e.g. A sent 2 messages and B received 1. -/
theorem c4_sent_received_bug :
    ((bW.toGraphSnapshotRun none).2.toOption.map fun s =>
      s.nodes.map fun nd => (nd.id, nd.messages_sent, nd.messages_received)) =
      some [("A", 0, 0), ("B", 0, 0), ("C", 0, 0)] ∧
    countSent msgsW "A" = 2 ∧ countReceived msgsW "A" = 2 ∧
    countSent msgsW "B" = 2 ∧ countReceived msgsW "B" = 1 ∧
    countSent msgsW "C" = 0 ∧ countReceived msgsW "C" = 1 := by
  decide

set_option maxRecDepth 4000 in
/-- C6 (counterexample): on a one-node graph (a single broadcast message)
`get_graph_metrics` *does* include all three centrality fields —
networkx returns `{v: 1}` when `len(G) <= 1` and the guard in the code is
`number_of_nodes() > 0` — contradicting "absent when n <= 1". -/
theorem c6_centrality_present_at_one_node :
    ((builderSolo.getGraphMetricsRun).2.toOption.map fun m =>
      (m.node_count, m.degree_centrality, m.in_degree_centrality.isSome,
       m.out_degree_centrality.isSome)) =
      some (1, some [("A", 1)], true, true) := by
  decide

/-- On a graph with more than one node, each networkx centrality map
sends a node to its degree divided by `n - 1`. -/
theorem centralityBy_of_one_lt (degf : String → Nat) (g : Graph)
    (h : 1 < g.nodes.length) :
    centralityBy degf g =
      g.nodes.map fun p => (p.1, (degf p.1 : ℚ) / ((g.nodes.length : ℚ) - 1)) := by
  unfold centralityBy
  rw [if_neg (by omega)]
  simp [mul_one_div, div_eq_mul_inv]

/-- On a graph with at most one node, each networkx centrality map sends
every node to `1`. -/
theorem centralityBy_of_le_one (degf : String → Nat) (g : Graph)
    (h : g.nodes.length ≤ 1) :
    centralityBy degf g = g.nodes.map fun p => (p.1, (1 : ℚ)) := by
  unfold centralityBy
  rw [if_pos h]

/-- C6 (amended): whenever `get_graph_metrics` succeeds (the graph is
built and has at least one node), all three centrality fields are
present; for `n > 1` each node's value is its degree (or in or out
degree) divided by `n - 1`, and for `n = 1` the single node's value is
`1`. -/
theorem c6_centrality_amended (b : GraphBuilder) (g : Graph)
    (hb : b.graph = some g) (hne : g.nodes ≠ []) :
    ∃ m, (b.getGraphMetricsRun).2 = Except.ok m ∧
      m.degree_centrality.isSome = true ∧
      m.in_degree_centrality.isSome = true ∧
      m.out_degree_centrality.isSome = true ∧
      (1 < g.nodes.length →
        m.degree_centrality =
          some (g.nodes.map fun p =>
            (p.1, (degree g p.1 : ℚ) / ((g.nodes.length : ℚ) - 1))) ∧
        m.in_degree_centrality =
          some (g.nodes.map fun p =>
            (p.1, (inDegree g p.1 : ℚ) / ((g.nodes.length : ℚ) - 1))) ∧
        m.out_degree_centrality =
          some (g.nodes.map fun p =>
            (p.1, (outDegree g p.1 : ℚ) / ((g.nodes.length : ℚ) - 1)))) ∧
      (g.nodes.length ≤ 1 →
        m.degree_centrality = some (g.nodes.map fun p => (p.1, (1 : ℚ))) ∧
        m.in_degree_centrality = some (g.nodes.map fun p => (p.1, (1 : ℚ))) ∧
        m.out_degree_centrality = some (g.nodes.map fun p => (p.1, (1 : ℚ)))) := by
  obtain ⟨bg, bm⟩ := b
  simp only at hb
  subst hb
  have htr : graphTruthy (some g) = true := by
    simp [graphTruthy, List.isEmpty_iff, hne]
  have hpos : 0 < g.nodes.length := List.length_pos.2 hne
  unfold GraphBuilder.getGraphMetricsRun
  simp only [htr, Bool.not_true, Bool.false_eq_true, if_false]
  rw [if_pos hpos]
  refine ⟨_, rfl, rfl, rfl, rfl, ?_, ?_⟩
  · intro h1
    rw [centralityBy_of_one_lt (degree g) g h1,
        centralityBy_of_one_lt (inDegree g) g h1,
        centralityBy_of_one_lt (outDegree g) g h1]
    exact ⟨rfl, rfl, rfl⟩
  · intro h1
    rw [centralityBy_of_le_one (degree g) g h1,
        centralityBy_of_le_one (inDegree g) g h1,
        centralityBy_of_le_one (outDegree g) g h1]
    exact ⟨rfl, rfl, rfl⟩

/-- Witness for the amended C6 at Scenario A (three nodes). -/
theorem c6_centrality_amended_witness :
    bW.graph = some gW ∧ gW.nodes ≠ [] ∧
    (∃ m, (bW.getGraphMetricsRun).2 = Except.ok m ∧
      m.degree_centrality.isSome = true ∧
      m.in_degree_centrality.isSome = true ∧
      m.out_degree_centrality.isSome = true ∧
      (1 < gW.nodes.length →
        m.degree_centrality =
          some (gW.nodes.map fun p =>
            (p.1, (degree gW p.1 : ℚ) / ((gW.nodes.length : ℚ) - 1))) ∧
        m.in_degree_centrality =
          some (gW.nodes.map fun p =>
            (p.1, (inDegree gW p.1 : ℚ) / ((gW.nodes.length : ℚ) - 1))) ∧
        m.out_degree_centrality =
          some (gW.nodes.map fun p =>
            (p.1, (outDegree gW p.1 : ℚ) / ((gW.nodes.length : ℚ) - 1)))) ∧
      (gW.nodes.length ≤ 1 →
        m.degree_centrality = some (gW.nodes.map fun p => (p.1, (1 : ℚ))) ∧
        m.in_degree_centrality = some (gW.nodes.map fun p => (p.1, (1 : ℚ))) ∧
        m.out_degree_centrality = some (gW.nodes.map fun p => (p.1, (1 : ℚ))))) :=
  ⟨rfl, by decide, c6_centrality_amended bW gW rfl (by decide)⟩

set_option maxRecDepth 4000 in
/-- C7 (counterexample): with three A→B messages at steps 0, 1, 2 and
`max_step = 1`, the snapshot metadata reports the *view's* node and edge
counts but `message_count = 3`, the base model's total, although only 2
messages (and 2 kept interactions) have `step_index <= 1`. -/
theorem c7_message_count_counterexample :
    ((builderThree.toGraphSnapshotRun (some 1)).2.toOption.map fun s =>
      (s.metadata.node_count, s.metadata.edge_count, s.metadata.message_count)) =
      some (2, 1, 3) ∧
    interactionCount (filterGraphByStep graphThree 1) = 2 ∧
    (msgsThree.filter fun m => m.step_index ≤ 1).length = 2 := by
  decide

/-- C7 (amended): for a built, non-empty model and any provided positive
`max_step`, the snapshot metadata's `node_count` and `edge_count` equal
the filtered view's counts, while `message_count` always equals the base
model's total message count, whatever the bound. -/
theorem c7_metadata_amended (b : GraphBuilder) (g : Graph) (k : Nat)
    (hb : b.graph = some g) (hne : g.nodes ≠ []) (hk : 0 < k) :
    ∃ s, (b.toGraphSnapshotRun (some k)).2 = Except.ok s ∧
      s.metadata.node_count = (filterGraphByStep g k).nodes.length ∧
      s.metadata.edge_count = (filterGraphByStep g k).edges.length ∧
      s.metadata.message_count = b.messages.length := by
  obtain ⟨bg, bm⟩ := b
  simp only at hb
  subst hb
  have htr : graphTruthy (some g) = true := by
    simp [graphTruthy, List.isEmpty_iff, hne]
  have hts : optStepTruthy (some k) = true := by
    simp only [optStepTruthy, ne_eq, bne_iff_ne]
    omega
  unfold GraphBuilder.toGraphSnapshotRun
  simp only [htr, Bool.not_true, Bool.false_eq_true, if_false]
  rw [if_pos (by rw [hts])]
  exact ⟨_, rfl, by simp, by simp, rfl⟩

/-- Witness for the amended C7 at the three-message fixture and
`max_step = 1`. -/
theorem c7_metadata_amended_witness :
    builderThree.graph = some graphThree ∧ graphThree.nodes ≠ [] ∧ 0 < 1 ∧
    (∃ s, (builderThree.toGraphSnapshotRun (some 1)).2 = Except.ok s ∧
      s.metadata.node_count = (filterGraphByStep graphThree 1).nodes.length ∧
      s.metadata.edge_count = (filterGraphByStep graphThree 1).edges.length ∧
      s.metadata.message_count = builderThree.messages.length) :=
  ⟨rfl, by decide, by omega,
   c7_metadata_amended builderThree graphThree 1 rfl (by decide) (by omega)⟩

/-- The first Scenario A message. -/
def msgW0 : Message :=
  { step_index := 0, timestamp := 10, sender := "A", receiver := some "B",
    message_type := .delegation, content := "task" }

set_option maxRecDepth 4000 in
/-- Witness for C10 at Scenario A, instantiated at the first interaction
of the A→B edge. -/
theorem c10_intent_range_witness :
    ((mkInteraction msgW0).intent = IntentLabel.delegation ∨
     (mkInteraction msgW0).intent = IntentLabel.coordination ∨
     (mkInteraction msgW0).intent = IntentLabel.information_response ∨
     (mkInteraction msgW0).intent = IntentLabel.feedback ∨
     (mkInteraction msgW0).intent = IntentLabel.unknown) ∧
    (mkInteraction msgW0).intent ≠ IntentLabel.information_request :=
  c10_intent_range msgsW gW rfl
    { source := "A", target := "B",
      interactions := [mkInteraction msgW0], weight := 1 }
    (by decide) (mkInteraction msgW0) (by decide)

end CommuGraph
